import Mathlib

/-!
Verification of ds-down (Synology Download Station url adder).

Shallow embedding of `src/wor/ds_down.py`: the credential resolver
(`get_password`), the config reader (`read_config`), the API client
(`send_url`), the verbosity-to-logging-level conversion
(`convert_int_to_logging_level`) and the cumulative `-v` / `-q`
argument actions from `process_cmd_line`.

Effects are made explicit: subprocess execution is a function
`List String → CmdOutcome`, the three HTTP responses are part of an
environment record, the filesystem is a pair of functions (readability
and contents), and a raised exception is the `.error` branch of
`Except Unit`.  `send_url` additionally returns the list of HTTP
requests it issued, so that claims about which calls happen (and with
which fields) can be stated.
-/

namespace DsDown

/-- Outcome of `subprocess.check_output`: either captured stdout, or a
`CalledProcessError` carrying the return code and the output. -/
inductive CmdOutcome where
  | ok (output : String)
  | fail (returncode : Int) (output : String)
deriving DecidableEq

/-- Python `s.startswith(p)`: `p` is a prefix of the character sequence of
`s`.  (Defined over the character lists so that it evaluates by kernel
reduction.) -/
def startsWith (s p : String) : Bool := p.data.isPrefixOf s.data

/-- Python `output.rstrip(os.linesep)` with `os.linesep = "\n"`. -/
def rstripNl (s : String) : String :=
  String.mk ((s.data.reverse.dropWhile (fun c => c == '\n')).reverse)

/-- Python `output.rstrip(os.linesep).rpartition(os.linesep)[2]`: the part of
the newline-right-stripped output after its last newline (the whole string
when it has no newline). -/
def lastLine (s : String) : String :=
  String.mk (((rstripNl s).data.reverse.takeWhile (fun c => !(c == '\n'))).reverse)

/-- Python `cmd.split()` over a character list: split on runs of whitespace,
producing no empty tokens.  `acc` holds the characters of the token being
read, in reverse. -/
def splitWsAux : List Char → List Char → List String
  | [], acc => if acc = [] then [] else [String.mk acc.reverse]
  | c :: cs, acc =>
    if c.isWhitespace then
      (if acc = [] then [] else [String.mk acc.reverse]) ++ splitWsAux cs []
    else splitWsAux cs (c :: acc)

/-- Python `[os.path.expanduser(p) for p in cmd.split()]`: split on
whitespace, dropping empty tokens, then expand each token. -/
def cmdSplit (expanduser : String → String) (cmd : String) : List String :=
  (splitWsAux cmd.data []).map expanduser

/-- Embedding of `get_password(cmd)`.  `runCmd` models the subprocess call;
`cmd = none` models passing `None` (the `if not cmd` guard also catches the
empty string). -/
def get_password (expanduser : String → String) (runCmd : List String → CmdOutcome)
    (cmd : Option String) : Option String :=
  match cmd with
  | none => none
  | some c =>
    if c = "" then none
    else
      match runCmd (cmdSplit expanduser c) with
      | .fail _ _ => none
      | .ok output =>
        let password := lastLine output
        if password = "" then none else some password

/-- Lookup of a config option: `config.get_default(opt_name)` returning
`none` in place of raising `NoOptionError`. -/
def lookupOpt (cfg : List (String × String)) (k : String) : Option String :=
  (cfg.find? (fun p => p.1 == k)).map (fun p => p.2)

/-- Embedding of `read_config(config_fn)`.  The parsed config file is a list
of key/value pairs; `none` models a config path that does not exist (the
source then returns `(None, None, None)`). -/
def read_config (expanduser : String → String) (runCmd : List String → CmdOutcome)
    (configFile : Option (List (String × String))) :
    Option String × Option String × Option String :=
  match configFile with
  | none => (none, none, none)
  | some cfg =>
      (lookupOpt cfg "username", lookupOpt cfg "host",
        get_password expanduser runCmd (lookupOpt cfg "passwordeval"))

/-- Python truthiness of an optional string (`not None` and `not ""`). -/
def truthy : Option String → Bool
  | none => false
  | some s => !(s == "")

/-- An HTTP response, reduced to what `send_url` inspects: the status code,
the `success` field of the JSON body, and (for the login response) the value
at `data.sid`. -/
structure Response where
  status : Nat
  success : Bool
  sid : String
deriving DecidableEq

/-- The environment `send_url` runs in: the parsed config file, the home
expansion and subprocess effects used by the credential resolver, the three
HTTP responses (login, task creation, logout) in the order the calls are
made, and the filesystem. -/
structure Env where
  configFile : Option (List (String × String))
  expanduser : String → String
  runCmd : List String → CmdOutcome
  loginResp : Response
  taskResp : Response
  logoutResp : Response
  fileReadable : String → Bool
  fileContents : String → List Nat

/-- An HTTP request issued by `send_url`: a plain form POST, or a multipart
POST carrying one attached file (form field name, attached filename, bytes). -/
inductive HttpCall where
  | post (url : String) (data : List (String × String))
  | postMultipart (url : String) (data : List (String × String))
      (fileField : String) (fileName : String) (fileBytes : List Nat)
deriving DecidableEq

/-- The `data` dict of the login request. -/
def login_data (username password : String) : List (String × String) :=
  [("api", "SYNO.API.Auth"), ("version", "2"), ("method", "login"),
   ("account", username), ("passwd", password),
   ("session", "DownloadStation"), ("format", "sid")]

/-- The `data` dict of the uri task-creation request. -/
def uri_task_data (auth add_url : String) : List (String × String) :=
  [("api", "SYNO.DownloadStation.Task"), ("version", "1"), ("method", "create"),
   ("session", "DownloadStation"), ("_sid", auth), ("uri", add_url)]

/-- The `args` dict of the file task-creation request (the file itself goes
in the multipart `files` part, and there is no `uri` key). -/
def file_task_data (auth : String) : List (String × String) :=
  [("api", "SYNO.DownloadStation.Task"), ("version", "1"), ("method", "create"),
   ("session", "DownloadStation"), ("_sid", auth)]

/-- The `data` dict of the logout request. -/
def logout_data : List (String × String) :=
  [("api", "SYNO.API.Auth"), ("version", "1"), ("method", "logout"),
   ("session", "DownloadStation")]

/-- The logout section at the end of `send_url` (shared by both task
branches in the source): issue the logout POST and fold its outcome into the
result. -/
def logout_step (env : Env) (authUrl : String) (calls : List HttpCall) :
    List HttpCall × Except Unit Bool :=
  let logoutCall := HttpCall.post authUrl logout_data
  if env.logoutResp.status ≠ 200 then (calls ++ [logoutCall], .ok false)
  else if env.logoutResp.success = false then (calls ++ [logoutCall], .ok false)
  else (calls ++ [logoutCall], .ok true)

/-- Embedding of `send_url(add_url, config_file)`.  Returns the list of HTTP
requests issued together with the result: `.ok b` for a normal `return b`,
`.error ()` for an uncaught exception (the `open(add_url)` of an unreadable
path). -/
def send_url (env : Env) (add_url : String) : List HttpCall × Except Unit Bool :=
  let rc := read_config env.expanduser env.runCmd env.configFile
  if truthy rc.1 && truthy rc.2.1 && truthy rc.2.2 then
    let username := rc.1.getD ""
    let host := rc.2.1.getD "" ++ "/webapi"
    let password := rc.2.2.getD ""
    let authUrl := host ++ "/auth.cgi"
    let dsUrl := host ++ "/DownloadStation/task.cgi"
    let loginCall := HttpCall.post authUrl (login_data username password)
    if env.loginResp.status ≠ 200 then ([loginCall], .ok false)
    else if env.loginResp.success = false then ([loginCall], .ok false)
    else
      let auth := env.loginResp.sid
      if !(startsWith add_url "http:") && !(startsWith add_url "magnet:") then
        if env.fileReadable add_url then
          let taskCall := HttpCall.postMultipart dsUrl (file_task_data auth)
              "file" add_url (env.fileContents add_url)
          if env.taskResp.status ≠ 200 then ([loginCall, taskCall], .ok false)
          else if env.taskResp.success = false then ([loginCall, taskCall], .ok false)
          else logout_step env authUrl [loginCall, taskCall]
        else ([loginCall], .error ())
      else
        let taskCall := HttpCall.post dsUrl (uri_task_data auth add_url)
        if env.taskResp.status ≠ 200 then ([loginCall, taskCall], .ok false)
        else if env.taskResp.success = false then ([loginCall, taskCall], .ok false)
        else logout_step env authUrl [loginCall, taskCall]
  else ([], .ok false)

/-- Embedding of `convert_int_to_logging_level(verbosity_level)` from
`main`: clamp to `[-2, 2]`, then `abs(verbosity_level - 3) * 10`. -/
def convert_int_to_logging_level (verbosity_level : Int) : Int :=
  let v := if verbosity_level > 2 then (2 : Int)
           else if verbosity_level < -2 then (-2 : Int)
           else verbosity_level
  (Int.natAbs (v - 3) : Int) * 10

/-- A `-v` or `-q` occurrence on the command line, with its optional
attached value string (`nargs should get none for a bare flag). -/
inductive VFlag where
  | verbose (values : Option String)
  | quiet (values : Option String)
deriving DecidableEq

/-- Python `values.isdigit()`: nonempty and all digits. -/
def isDigits (s : String) : Bool := !(s == "") && s.all Char.isDigit

/-- The `verbosity_level` computed by `Verbose_action` / `Quiet_action` from
the attached value (`letter` is `v` or `q`): `none` counts as 1, a digit
string is taken literally, a run of the flag letter counts `run+1`, and
anything else raises `ArgumentError` (the `.error` branch). -/
def flag_level (letter : Char) (values : Option String) : Except Unit Nat :=
  match values with
  | none => .ok 1
  | some s =>
    if isDigits s then .ok ((s.toNat?).getD 0)
    else
      let cnt := (s.data.filter (fun c => c = letter)).length
      if cnt ≠ s.length then .error ()
      else .ok (cnt + 1)

/-- The `default=10` of the `-v` argument: the value of `namespace.verbose`
when neither `-v` nor `-q` occurs. -/
def verbose_default : Int := 10

/-- One action invocation: `Verbose_action` adds its level to the current
`namespace.verbose`, `Quiet_action` subtracts it. -/
def apply_flag (acc : Except Unit Int) (f : VFlag) : Except Unit Int :=
  match acc with
  | .error e => .error e
  | .ok cur =>
    match f with
    | .verbose values =>
      match flag_level 'v' values with
      | .error e => .error e
      | .ok n => .ok (cur + (n : Int))
    | .quiet values =>
      match flag_level 'q' values with
      | .error e => .error e
      | .ok n => .ok (cur - (n : Int))

/-- The net `args.verbose` produced by `process_cmd_line` from the sequence
of `-v` / `-q` occurrences: fold the cumulative actions over the argparse
default. -/
def parse_verbose (flags : List VFlag) : Except Unit Int :=
  flags.foldl apply_flag (.ok verbose_default)

/-! Helper views of the environment, used to state the claims. -/

/-- The config triple `send_url` obtains. -/
def env_config (env : Env) : Option String × Option String × Option String :=
  read_config env.expanduser env.runCmd env.configFile

/-- All three config values resolved and truthy, i.e. the
`if not username or not host or not password` guard passes. -/
def config_ok (env : Env) : Bool :=
  truthy (env_config env).1 && truthy (env_config env).2.1 && truthy (env_config env).2.2

/-- The login call succeeded: HTTP 200 and JSON `success` true. -/
def login_ok (env : Env) : Bool :=
  env.loginResp.status == 200 && env.loginResp.success

/-- The task-creation call succeeded: HTTP 200 and JSON `success` true. -/
def task_ok (env : Env) : Bool :=
  env.taskResp.status == 200 && env.taskResp.success

/-- The logout call succeeded: HTTP 200 and JSON `success` true. -/
def logout_ok (env : Env) : Bool :=
  env.logoutResp.status == 200 && env.logoutResp.success

/-- All four stages of `send_url` succeed. -/
def all_ok (env : Env) : Bool :=
  config_ok env && login_ok env && task_ok env && logout_ok env

/-- A target routed to the uri-creation path: starts with `http:` or
`magnet:`. -/
def is_remote (url : String) : Bool :=
  startsWith url "http:" || startsWith url "magnet:"

/-- The `host + "/webapi"` base `send_url` builds. -/
def resolved_host (env : Env) : String := (env_config env).2.1.getD "" ++ "/webapi"

/-- The auth endpoint url. -/
def auth_url (env : Env) : String := resolved_host env ++ "/auth.cgi"

/-- The DownloadStation task endpoint url. -/
def task_url (env : Env) : String := resolved_host env ++ "/DownloadStation/task.cgi"

/-- The username `send_url` logs in with. -/
def resolved_username (env : Env) : String := (env_config env).1.getD ""

/-- The password `send_url` logs in with. -/
def resolved_password (env : Env) : String := (env_config env).2.2.getD ""

/-- The login request `send_url` issues. -/
def login_call (env : Env) : HttpCall :=
  HttpCall.post (auth_url env) (login_data (resolved_username env) (resolved_password env))

/-- The logout request `send_url` issues. -/
def logout_call (env : Env) : HttpCall :=
  HttpCall.post (auth_url env) logout_data

/-- The final path component of a slash-separated path.  Modelled from the
claim's words (the code does not compute this): the part after the last `/`. -/
def claimBasename (s : String) : String :=
  String.mk ((s.data.reverse.takeWhile (fun c => !(c == '/'))).reverse)

/-- A concrete environment on which every stage succeeds, used to
instantiate the claims on explicit inputs. -/
def envA : Env :=
  { configFile := some [("username", "u"), ("host", "http://nas:5000"),
      ("passwordeval", "cat pw")],
    expanduser := id, runCmd := fun _ => CmdOutcome.ok "secret\n",
    loginResp := ⟨200, true, "SID9"⟩, taskResp := ⟨200, true, ""⟩,
    logoutResp := ⟨200, true, ""⟩,
    fileReadable := fun _ => true, fileContents := fun _ => [1, 2, 3] }

/-- `envA` with a login response of HTTP 200 carrying `success: false`. -/
def envLoginFail : Env := { envA with loginResp := ⟨200, false, ""⟩ }

/-- `envA` with a task-creation response carrying `success: false`. -/
def envTaskFail : Env := { envA with taskResp := ⟨200, false, ""⟩ }

/-- `envA` with no readable files. -/
def envNoFile : Env := { envA with fileReadable := fun _ => false }

end DsDown

deriving instance DecidableEq for Except

namespace DsDown

/-! Helper lemmas characterizing `send_url` branch by branch. -/

/-- The logout section appends the logout call and yields `logout_ok`. -/
theorem logout_step_eq (env : Env) (a : String) (calls : List HttpCall) :
    logout_step env a calls =
      (calls ++ [HttpCall.post a logout_data], Except.ok (logout_ok env)) := by
  unfold logout_step logout_ok
  by_cases h : env.logoutResp.status = 200
  · rcases hb : env.logoutResp.success
    · simp [h, hb]
    · simp [h, hb]
  · simp [h]

/-- With a config value missing or empty, `send_url` stops before any HTTP
call. -/
theorem send_url_config_fail (env : Env) (url : String) (h : config_ok env = false) :
    send_url env url = ([], Except.ok false) := by
  unfold send_url
  simp only [config_ok, env_config] at h
  simp [h]

/-- With config resolved but the login call failing, `send_url` stops after
the login call. -/
theorem send_url_login_fail (env : Env) (url : String) (hc : config_ok env = true)
    (h : login_ok env = false) :
    send_url env url = ([login_call env], Except.ok false) := by
  unfold send_url
  simp only [config_ok, env_config] at hc
  simp only [login_ok, Bool.and_eq_false_iff, beq_eq_false_iff_ne, ne_eq,
    Bool.not_eq_true] at h
  simp only [login_call, auth_url, resolved_host, resolved_username, resolved_password,
    env_config]
  rcases h with h | h
  · simp [hc, h]
  · simp [hc, h]

/-- With config and login succeeding and a `http:`/`magnet:` target,
`send_url` issues the uri-creation call and proceeds to logout only when it
succeeds. -/
theorem send_url_remote (env : Env) (url : String) (hc : config_ok env = true)
    (hl : login_ok env = true) (hr : is_remote url = true) :
    send_url env url =
      let taskCall := HttpCall.post (task_url env) (uri_task_data env.loginResp.sid url)
      if task_ok env = false then ([login_call env, taskCall], Except.ok false)
      else ([login_call env, taskCall, logout_call env], Except.ok (logout_ok env)) := by
  unfold send_url
  simp only [config_ok, env_config] at hc
  simp only [login_ok, Bool.and_eq_true, beq_iff_eq] at hl
  have hrem : (!(startsWith url "http:") && !(startsWith url "magnet:")) = false := by
    simp only [is_remote, Bool.or_eq_true] at hr
    rcases hr with h | h <;> simp [h]
  simp only [login_call, logout_call, task_url, auth_url, resolved_host, resolved_username,
    resolved_password, env_config, logout_step_eq]
  simp only [task_ok, Bool.and_eq_false_iff, beq_eq_false_iff_ne, ne_eq, Bool.not_eq_true]
  by_cases ht : env.taskResp.status = 200
  · rcases hts : env.taskResp.success
    · simp [hc, hl.1, hl.2, hrem, ht, hts, logout_step_eq]
    · simp [hc, hl.1, hl.2, hrem, ht, hts, logout_step_eq]
  · simp [hc, hl.1, hl.2, hrem, ht, logout_step_eq]

/-- With config and login succeeding, a non-remote target and a readable
file, `send_url` issues the multipart upload and proceeds to logout only
when it succeeds. -/
theorem send_url_file (env : Env) (url : String) (hc : config_ok env = true)
    (hl : login_ok env = true) (hr : is_remote url = false)
    (hread : env.fileReadable url = true) :
    send_url env url =
      let taskCall := HttpCall.postMultipart (task_url env) (file_task_data env.loginResp.sid)
        "file" url (env.fileContents url)
      if task_ok env = false then ([login_call env, taskCall], Except.ok false)
      else ([login_call env, taskCall, logout_call env], Except.ok (logout_ok env)) := by
  unfold send_url
  simp only [config_ok, env_config] at hc
  simp only [login_ok, Bool.and_eq_true, beq_iff_eq] at hl
  simp only [is_remote, Bool.or_eq_false_iff] at hr
  simp only [login_call, logout_call, task_url, auth_url, resolved_host, resolved_username,
    resolved_password, env_config, logout_step_eq]
  simp only [task_ok, Bool.and_eq_false_iff, beq_eq_false_iff_ne, ne_eq, Bool.not_eq_true]
  by_cases ht : env.taskResp.status = 200
  · rcases hts : env.taskResp.success
    · simp [hc, hl.1, hl.2, hr.1, hr.2, hread, ht, hts, logout_step_eq]
    · simp [hc, hl.1, hl.2, hr.1, hr.2, hread, ht, hts, logout_step_eq]
  · simp [hc, hl.1, hl.2, hr.1, hr.2, hread, ht, logout_step_eq]

/-- With config and login succeeding, a non-remote target and an unreadable
file, `send_url` raises out of the `open` call. -/
theorem send_url_file_unreadable (env : Env) (url : String) (hc : config_ok env = true)
    (hl : login_ok env = true) (hr : is_remote url = false)
    (hread : env.fileReadable url = false) :
    send_url env url = ([login_call env], Except.error ()) := by
  unfold send_url
  simp only [config_ok, env_config] at hc
  simp only [login_ok, Bool.and_eq_true, beq_iff_eq] at hl
  simp only [is_remote, Bool.or_eq_false_iff] at hr
  simp only [login_call, auth_url, resolved_host, resolved_username, resolved_password,
    env_config]
  simp [hc, hl.1, hl.2, hr.1, hr.2, hread]

/-- The logout `data` dict differs from the login one. -/
theorem logout_data_ne_login_data (u p : String) : logout_data ≠ login_data u p := by
  intro h
  have hlen := congrArg List.length h
  simp [logout_data, login_data] at hlen

/-- The logout `data` dict differs from the uri task-creation one. -/
theorem logout_data_ne_uri_task_data (a b : String) : logout_data ≠ uri_task_data a b := by
  intro h
  have hlen := congrArg List.length h
  simp [logout_data, uri_task_data] at hlen

/-- Whatever the stage outcomes, as long as the file branch does not raise,
the result of `send_url` is `ok` of the conjunction of the four stage
checks. -/
theorem send_url_result (env : Env) (url : String)
    (h : is_remote url = true ∨ env.fileReadable url = true) :
    (send_url env url).2 = Except.ok (all_ok env) := by
  by_cases hc : config_ok env = true
  · by_cases hl : login_ok env = true
    · by_cases hrem : is_remote url = true
      · rw [send_url_remote env url hc hl hrem]
        by_cases ht : task_ok env = false
        · simp [ht, all_ok, hc, hl]
        · have ht' : task_ok env = true := by revert ht; cases task_ok env <;> simp
          simp [ht, ht', all_ok, hc, hl]
      · have hrem' : is_remote url = false := by revert hrem; cases is_remote url <;> simp
        have hread : env.fileReadable url = true := by
          rcases h with h | h
          · exact absurd h hrem
          · exact h
        rw [send_url_file env url hc hl hrem' hread]
        by_cases ht : task_ok env = false
        · simp [ht, all_ok, hc, hl]
        · have ht' : task_ok env = true := by revert ht; cases task_ok env <;> simp
          simp [ht, ht', all_ok, hc, hl]
    · have hl' : login_ok env = false := by revert hl; cases login_ok env <;> simp
      rw [send_url_login_fail env url hc hl']
      simp [all_ok, hl']
  · have hc' : config_ok env = false := by revert hc; cases config_ok env <;> simp
    rw [send_url_config_fail env url hc']
    simp [all_ok, hc']

/-! The claims. -/

/-- C1: the verbosity-to-logging-level conversion first clamps its argument
to `[-2, 2]` and then returns `abs(v - 3) * 10`; on `2, 1, 0, -1, -2` it
yields `10, 20, 30, 40, 50`, and out-of-range inputs map to the clamped
boundary's value (`8 ↦ 10`, `-10 ↦ 50`). -/
theorem C1_convert_clamps_then_maps (v : Int) :
    convert_int_to_logging_level v = (((max (-2) (min 2 v)) - 3).natAbs : Int) * 10 ∧
    convert_int_to_logging_level 2 = 10 ∧ convert_int_to_logging_level 1 = 20 ∧
    convert_int_to_logging_level 0 = 30 ∧ convert_int_to_logging_level (-1) = 40 ∧
    convert_int_to_logging_level (-2) = 50 ∧ convert_int_to_logging_level 8 = 10 ∧
    convert_int_to_logging_level (-10) = 50 := by
  refine ⟨?_, by decide, by decide, by decide, by decide, by decide, by decide, by decide⟩
  have hclamp : (if v > 2 then (2 : Int) else if v < -2 then (-2 : Int) else v) =
      max (-2) (min 2 v) := by
    split_ifs <;> omega
  simp only [convert_int_to_logging_level, hclamp]

/-- C2 counterexample: with no `-v` and no `-q` on the command line, the net
verbosity handed to the severity mapping is the argparse default 10, not the
claimed midpoint 0, and the resulting logging level is 10, not the claimed
30. -/
theorem C2_counterexample :
    parse_verbose [] = Except.ok 10 ∧ parse_verbose [] ≠ Except.ok 0 ∧
    convert_int_to_logging_level 10 = 10 ∧ convert_int_to_logging_level 10 ≠ 30 :=
  ⟨rfl, by decide, by decide, by decide⟩

/-- C2 (amended): with no `-v` and no `-q` on the command line, the net
verbosity integer handed to the severity mapping is the argparse default 10,
which clamps to 2, so the configured logging level is 10 (the most verbose
level), not 30. -/
theorem C2_default_verbosity_is_ten :
    parse_verbose [] = Except.ok verbose_default ∧ verbose_default = 10 ∧
    convert_int_to_logging_level verbose_default = 10 :=
  ⟨rfl, rfl, by decide⟩

/-- C3: once the login has succeeded, the task-creation request is chosen by
prefix only: a target starting with `http:` or `magnet:` is sent as the
uri-creation POST carrying `uri=<target>`, and any other target (a
`https:`-prefixed one included) is treated as a local file path and sent as
a multipart file upload. -/
theorem C3_classification_by_two_prefixes (env : Env) (url : String)
    (hc : config_ok env = true) (hl : login_ok env = true) :
    (is_remote url = true →
      (send_url env url).1.get? 1 =
        some (HttpCall.post (task_url env) (uri_task_data env.loginResp.sid url))) ∧
    (is_remote url = false → env.fileReadable url = true →
      (send_url env url).1.get? 1 =
        some (HttpCall.postMultipart (task_url env) (file_task_data env.loginResp.sid)
          "file" url (env.fileContents url))) := by
  constructor
  · intro hr
    rw [send_url_remote env url hc hl hr]
    by_cases ht : task_ok env = false <;> simp [ht]
  · intro hr hread
    rw [send_url_file env url hc hl hr hread]
    by_cases ht : task_ok env = false <;> simp [ht]

/-- C3 witness: on a concrete all-success environment, the `https:` target
goes to the multipart-upload path and the `magnet:` target to the
uri-creation path. -/
theorem C3_witness :
    is_remote "https://example.com/f.iso" = false ∧
    (send_url envA "https://example.com/f.iso").1.get? 1 =
      some (HttpCall.postMultipart (task_url envA) (file_task_data "SID9")
        "file" "https://example.com/f.iso" [1, 2, 3]) ∧
    is_remote "magnet:?xt=a" = true ∧
    (send_url envA "magnet:?xt=a").1.get? 1 =
      some (HttpCall.post (task_url envA) (uri_task_data "SID9" "magnet:?xt=a")) :=
  ⟨by decide,
   (C3_classification_by_two_prefixes envA "https://example.com/f.iso"
      (by decide) (by decide)).2 (by decide) (by decide),
   by decide,
   (C3_classification_by_two_prefixes envA "magnet:?xt=a"
      (by decide) (by decide)).1 (by decide)⟩

/-- C4 counterexample: for the local target `/tmp/dir/file.torrent` the
multipart upload attaches the file under the full target string, which is
not the basename `file.torrent` the claim announces. -/
theorem C4_counterexample :
    (send_url envA "/tmp/dir/file.torrent").1.get? 1 =
      some (HttpCall.postMultipart (task_url envA) (file_task_data "SID9")
        "file" "/tmp/dir/file.torrent" [1, 2, 3]) ∧
    claimBasename "/tmp/dir/file.torrent" = "file.torrent" ∧
    ("/tmp/dir/file.torrent" : String) ≠ claimBasename "/tmp/dir/file.torrent" :=
  ⟨by decide, by decide, by decide⟩

/-- C4 (amended): for every target treated as a local file path, the
task-creation request is a multipart upload attaching the file's raw bytes
under the form field `file`, using the full target string (not its basename)
as the attached filename, and its form data carries no `uri` field. -/
theorem C4_multipart_uses_full_target_as_filename (env : Env) (url : String)
    (hc : config_ok env = true) (hl : login_ok env = true)
    (hr : is_remote url = false) (hread : env.fileReadable url = true) :
    (send_url env url).1.get? 1 =
      some (HttpCall.postMultipart (task_url env) (file_task_data env.loginResp.sid)
        "file" url (env.fileContents url)) ∧
    lookupOpt (file_task_data env.loginResp.sid) "uri" = none := by
  constructor
  · rw [send_url_file env url hc hl hr hread]
    by_cases ht : task_ok env = false <;> simp [ht]
  · rfl

/-- C4 witness: the amended statement instantiated on the concrete
all-success environment and the target `/tmp/dir/file.torrent`. -/
theorem C4_witness :
    (send_url envA "/tmp/dir/file.torrent").1.get? 1 =
      some (HttpCall.postMultipart (task_url envA) (file_task_data "SID9")
        "file" "/tmp/dir/file.torrent" [1, 2, 3]) ∧
    lookupOpt (file_task_data "SID9") "uri" = none :=
  C4_multipart_uses_full_target_as_filename envA "/tmp/dir/file.torrent"
    (by decide) (by decide) (by decide) (by decide)

/-- C5: as long as the target does not make the file branch raise, `send_url`
returns true exactly when config resolution, login, task creation and logout
all succeed (HTTP 200 and JSON `success` true for the three calls), and false
exactly when some stage fails. -/
theorem C5_success_iff_all_stages (env : Env) (url : String)
    (h : is_remote url = true ∨ env.fileReadable url = true) :
    ((send_url env url).2 = Except.ok true ↔ all_ok env = true) ∧
    ((send_url env url).2 = Except.ok false ↔ all_ok env = false) := by
  rw [send_url_result env url h]
  constructor
  · constructor
    · intro hx
      exact Except.ok.inj hx
    · intro hx
      rw [hx]
  · constructor
    · intro hx
      exact Except.ok.inj hx
    · intro hx
      rw [hx]

/-- C5 witness: on the concrete all-success environment and a `http:` target
the result is true, and all stages indeed succeed. -/
theorem C5_witness :
    (send_url envA "http://example.com/f.iso").2 = Except.ok true ∧
    all_ok envA = true :=
  ⟨(C5_success_iff_all_stages envA "http://example.com/f.iso"
      (Or.inl (by decide))).1.mpr (by decide), by decide⟩

/-- C6: the credential resolver yields no password when the subprocess exits
with a failure, yields no password when the resulting last output line is
empty, and never yields the empty string as a password. -/
theorem C6_get_password_failure_handling (eu : String → String)
    (run : List String → CmdOutcome) (cmd : String) :
    (∀ s : Option String, get_password eu run s ≠ some "") ∧
    (∀ rc out, run (cmdSplit eu cmd) = CmdOutcome.fail rc out →
      get_password eu run (some cmd) = none) ∧
    (∀ out, run (cmdSplit eu cmd) = CmdOutcome.ok out → lastLine out = "" →
      get_password eu run (some cmd) = none) := by
  refine ⟨?_, ?_, ?_⟩
  · intro s
    cases s with
    | none => simp [get_password]
    | some c =>
      by_cases hc : c = ""
      · simp [get_password, hc]
      · cases hrun : run (cmdSplit eu c) with
        | fail rc out => simp [get_password, hc, hrun]
        | ok out =>
          by_cases hp : lastLine out = ""
          · simp [get_password, hc, hrun, hp]
          · simp [get_password, hc, hrun, hp]
  · intro rc out h
    by_cases hc : cmd = ""
    · simp [get_password, hc]
    · simp [get_password, hc, h]
  · intro out h hempty
    by_cases hc : cmd = ""
    · simp [get_password, hc]
    · simp [get_password, hc, h, hempty]

/-- C6 witness: a concrete failing password command resolves to no
password. -/
theorem C6_witness :
    get_password id (fun _ => CmdOutcome.fail 1 "oops") (some "pass show x") = none :=
  (C6_get_password_failure_handling id (fun _ => CmdOutcome.fail 1 "oops")
    "pass show x").2.1 1 "oops" rfl

/-- C7: when the login call returns HTTP 200 with `success: false`,
`send_url` returns false and the login call is the only HTTP call issued
(no task creation, no logout). -/
theorem C7_login_refusal_stops_pipeline (env : Env) (url : String)
    (hc : config_ok env = true) (_hs : env.loginResp.status = 200)
    (hf : env.loginResp.success = false) :
    send_url env url = ([login_call env], Except.ok false) := by
  apply send_url_login_fail env url hc
  simp [login_ok, hf]

/-- C7 witness: the concrete environment whose login response is HTTP 200
with `success: false` yields false with exactly one call issued. -/
theorem C7_witness :
    send_url envLoginFail "http://example.com/f.iso" =
      ([login_call envLoginFail], Except.ok false) :=
  C7_login_refusal_stops_pipeline envLoginFail "http://example.com/f.iso"
    (by decide) rfl rfl

/-- C8: when the task-creation call fails (non-200 or `success: false`)
after a successful login, `send_url` returns false and the logout call is
never issued. -/
theorem C8_task_failure_skips_logout (env : Env) (url : String)
    (hc : config_ok env = true) (hl : login_ok env = true)
    (ht : task_ok env = false)
    (h : is_remote url = true ∨ env.fileReadable url = true) :
    (send_url env url).2 = Except.ok false ∧
    logout_call env ∉ (send_url env url).1 := by
  by_cases hrem : is_remote url = true
  · rw [send_url_remote env url hc hl hrem]
    simp only [ht, if_pos]
    refine ⟨trivial, ?_⟩
    intro hmem
    simp only [List.mem_cons, List.not_mem_nil, or_false] at hmem
    rcases hmem with h1 | h1
    · simp only [logout_call, login_call, HttpCall.post.injEq] at h1
      exact logout_data_ne_login_data _ _ h1.2
    · simp only [logout_call, HttpCall.post.injEq] at h1
      exact logout_data_ne_uri_task_data _ _ h1.2
  · have hrem' : is_remote url = false := by revert hrem; cases is_remote url <;> simp
    have hread : env.fileReadable url = true := by
      rcases h with h | h
      · exact absurd h hrem
      · exact h
    rw [send_url_file env url hc hl hrem' hread]
    simp only [ht, if_pos]
    refine ⟨trivial, ?_⟩
    intro hmem
    simp only [List.mem_cons, List.not_mem_nil, or_false] at hmem
    rcases hmem with h1 | h1
    · simp only [logout_call, login_call, HttpCall.post.injEq] at h1
      exact logout_data_ne_login_data _ _ h1.2
    · simp only [logout_call] at h1
      exact HttpCall.noConfusion h1

/-- C8 witness: the concrete environment whose task-creation response is
HTTP 200 with `success: false` yields false and never issues the logout
call. -/
theorem C8_witness :
    (send_url envTaskFail "http://example.com/f.iso").2 = Except.ok false ∧
    logout_call envTaskFail ∉ (send_url envTaskFail "http://example.com/f.iso").1 :=
  C8_task_failure_skips_logout envTaskFail "http://example.com/f.iso"
    (by decide) (by decide) (by decide) (Or.inl (by decide))

/-- C9: an existing config file missing a required key makes `read_config`
return an absent value for exactly that key, while each key that is present
still resolves (the `passwordeval` key resolving through the credential
resolver); a missing key does not abort the others. -/
theorem C9_missing_key_is_isolated (eu : String → String)
    (run : List String → CmdOutcome) (cfg : List (String × String)) :
    (lookupOpt cfg "username" = none → (read_config eu run (some cfg)).1 = none) ∧
    (lookupOpt cfg "host" = none → (read_config eu run (some cfg)).2.1 = none) ∧
    (lookupOpt cfg "passwordeval" = none → (read_config eu run (some cfg)).2.2 = none) ∧
    (∀ u, lookupOpt cfg "username" = some u → (read_config eu run (some cfg)).1 = some u) ∧
    (∀ v, lookupOpt cfg "host" = some v → (read_config eu run (some cfg)).2.1 = some v) ∧
    (∀ c, lookupOpt cfg "passwordeval" = some c →
      (read_config eu run (some cfg)).2.2 = get_password eu run (some c)) := by
  refine ⟨?_, ?_, ?_, ?_, ?_, ?_⟩
  · intro h
    simp [read_config, h]
  · intro h
    simp [read_config, h]
  · intro h
    simp [read_config, h, get_password]
  · intro u h
    simp [read_config, h]
  · intro v h
    simp [read_config, h]
  · intro c h
    simp [read_config, h]

/-- C9 witness: a concrete config file with only a `host` entry resolves to
an absent username and the present host value. -/
theorem C9_witness :
    (read_config id (fun _ => CmdOutcome.ok "x") (some [("host", "h1")])).1 = none ∧
    (read_config id (fun _ => CmdOutcome.ok "x") (some [("host", "h1")])).2.1 = some "h1" :=
  ⟨(C9_missing_key_is_isolated id (fun _ => CmdOutcome.ok "x") [("host", "h1")]).1
      (by decide),
   (C9_missing_key_is_isolated id (fun _ => CmdOutcome.ok "x") [("host", "h1")]).2.2.2.2.1
      "h1" (by decide)⟩

/-- C10: a target that starts with neither `http:` nor `magnet:` and does
not name a readable file makes `send_url` raise out of the `open` call
(after a successful login) instead of returning the documented false
result. -/
theorem C10_unreadable_file_raises (env : Env) (url : String)
    (hc : config_ok env = true) (hl : login_ok env = true)
    (hr : is_remote url = false) (hread : env.fileReadable url = false) :
    (send_url env url).2 = Except.error () ∧
    (send_url env url).2 ≠ Except.ok false := by
  rw [send_url_file_unreadable env url hc hl hr hread]
  exact ⟨rfl, by simp⟩

/-- C10 witness: on the concrete environment with no readable files, a local
path target makes `send_url` raise rather than return false. -/
theorem C10_witness :
    (send_url envNoFile "/no/such.torrent").2 = Except.error () ∧
    (send_url envNoFile "/no/such.torrent").2 ≠ Except.ok false :=
  C10_unreadable_file_raises envNoFile "/no/such.torrent"
    (by decide) (by decide) (by decide) rfl

end DsDown
